import Mathlib

/-!
Shallow embedding of the Expense-Tracker MCP server (`src/main.py`).

The external relational store (supabase) is modelled as an in-memory list
of rows per table; each query-builder chain (`.eq`, `.gte`, `.lte`,
`.order`, `.limit`) is embedded as the corresponding list operation, and
`execute` returns the filtered rows.  Monetary amounts (Python floats)
are modelled as rationals; dates as the ISO `YYYY-MM-DD` strings the code
stores and compares.  The server clock (`datetime.now()`) is passed in
explicitly as the string `today`.

Optional string parameters are tested with Python truthiness (`if not
date:`, `if start_date:`), under which an absent value and the empty
string behave identically; the embedding models a falsy value as `none`
and a truthy one as `some s`.  The `new_amount` parameter of update is
checked with `is None` in the source, so there plain `Option` is the
exact translation.
-/

namespace ExpenseTracker

/-- A row of the `transactions` table, with the columns `add_transaction`
inserts (`id` is store-assigned). -/
structure Txn where
  id : Nat
  user_id : String
  amount : ℚ
  type : String
  category : String
  subcategory : String
  note : String
  date : String
deriving Repr, DecidableEq

/-- A row of the `settings` table (`user_id`, `total_budget`). -/
structure Setting where
  user_id : String
  total_budget : ℚ
deriving Repr, DecidableEq

/-- The whole store: the two tables the transaction tools touch. -/
structure DB where
  transactions : List Txn
  settings : List Setting
deriving Repr, DecidableEq

/-- Lexicographic comparison of character lists by code point; on ISO
`YYYY-MM-DD` strings this is exactly the date order used by the
gte and lte comparisons of the store. -/
def charLe : List Char → List Char → Bool
  | [], _ => true
  | _ :: _, [] => false
  | a :: as, b :: bs =>
    if a.toNat < b.toNat then true
    else if b.toNat < a.toNat then false
    else charLe as bs

/-- The ordering the store applies to date strings. -/
def dateLe (a b : String) : Bool := charLe a.data b.data

/-- The first day of the current month as the code formats it, obtained
from the ISO date of today by keeping `YYYY-MM` and appending `-01`. -/
def start_of_month (today : String) : String :=
  String.mk (today.data.take 7 ++ "-01".data)

/-- The monthly-spend query of `get_budget_status`:
`transactions.select("amount").eq("user_id", u).eq("type", "expense").gte("date", som)`
summed. -/
def month_spend (db : DB) (today : String) (user_id : String) : ℚ :=
  ((db.transactions.filter (fun t =>
      t.user_id == user_id && t.type == "expense"
        && dateLe (start_of_month today) t.date)).map Txn.amount).sum

/-- Outcome of `get_budget_status`, one constructor per `return` of the
source: `noBudget` and `ok` both render as the empty message. -/
inductive BudgetStatus where
  | noBudget
  | warning (remaining : ℚ)
  | exceeded (over : ℚ)
  | ok
deriving Repr, DecidableEq

/-- The classification branch of `get_budget_status`, in source order:
`if 0 <= remaining <= 500` warn, `elif remaining < 0` exceeded with
`abs(remaining)`, else the empty message. -/
def classify (remaining : ℚ) : BudgetStatus :=
  if 0 ≤ remaining ∧ remaining ≤ 500 then .warning remaining
  else if remaining < 0 then .exceeded |remaining| else .ok

/-- `get_budget_status(user_id, new_expense)`: fetch the budget row
(first match wins, absent means no message), sum the expenses of the
current month and classify `budget - spent - new_expense`. -/
def get_budget_status (db : DB) (today : String) (user_id : String)
    (new_expense : ℚ) : BudgetStatus :=
  match (db.settings.filter (fun s => s.user_id == user_id)).head? with
  | none => .noBudget
  | some s => classify (s.total_budget - month_spend db today user_id - new_expense)

/-- `add_transaction`: build the row (date defaults to today, type from
`is_credit`), insert it, and afterwards — for an expense — run
`get_budget_status` on the post-insert store with the same amount.
`none` in the second component means the evaluator was not invoked
(credit entry); the textual `Logged ...` prefix is not modelled. -/
def add_transaction (db : DB) (today : String) (new_id : Nat)
    (user_id : String) (amount : ℚ) (category : String)
    (subcategory : String) (note : String) (date : Option String)
    (is_credit : Bool) : DB × Option BudgetStatus :=
  let d := date.getD today
  let t_type := if is_credit then "credit" else "expense"
  let row : Txn :=
    { id := new_id, user_id := user_id, amount := amount, type := t_type,
      category := category, subcategory := subcategory, note := note, date := d }
  let db2 : DB := { db with transactions := db.transactions ++ [row] }
  if is_credit then (db2, none)
  else (db2, some (get_budget_status db2 today user_id amount))

/-- Result of `list_expenses`: the rows when nonempty, otherwise the
`"No transactions found."` message. -/
inductive ListResult where
  | rows (data : List Txn)
  | noTransactions
deriving Repr, DecidableEq

/-- The filter chain of `list_expenses`: by `user_id`, then by the
optional `start_date`/`end_date`/`category`. -/
def list_query (db : DB) (user_id : String)
    (start_date end_date category : Option String) : List Txn :=
  let q1 := db.transactions.filter (fun t => t.user_id == user_id)
  let q2 := match start_date with
    | none => q1
    | some sd => q1.filter (fun t => dateLe sd t.date)
  let q3 := match end_date with
    | none => q2
    | some ed => q2.filter (fun t => dateLe t.date ed)
  match category with
  | none => q3
  | some c => q3.filter (fun t => t.category == c)

/-- `list_expenses`: run the filter chain, order by date descending,
truncate to `limit`. -/
def list_expenses (db : DB) (user_id : String)
    (start_date end_date category : Option String) (limit : Nat) : ListResult :=
  let res := ((list_query db user_id start_date end_date category).mergeSort
    (fun a b => dateLe b.date a.date)).take limit
  if res.isEmpty then .noTransactions else .rows res

/-- The row set `get_summary` iterates over: tenant filter plus the
optional date window. -/
def summary_query (db : DB) (user_id : String)
    (start_date end_date : Option String) : List Txn :=
  let q1 := db.transactions.filter (fun t => t.user_id == user_id)
  let q2 := match start_date with
    | none => q1
    | some sd => q1.filter (fun t => dateLe sd t.date)
  match end_date with
  | none => q2
  | some ed => q2.filter (fun t => dateLe t.date ed)

/-- The accumulation loop of `get_summary`: expenses and credits summed
independently, any other `type` ignored. -/
def summarize_rows (rows : List Txn) : ℚ × ℚ :=
  rows.foldl (fun acc row =>
    if row.type == "expense" then (acc.1 + row.amount, acc.2)
    else if row.type == "credit" then (acc.1, acc.2 + row.amount)
    else acc) (0, 0)

/-- The dictionary `get_summary` returns. -/
structure Summary where
  total_expense : ℚ
  total_credit : ℚ
  net_balance : ℚ
deriving Repr, DecidableEq

/-- `get_summary`: run the query, accumulate, report
`net_balance = credits - expenses`. -/
def get_summary (db : DB) (user_id : String)
    (start_date end_date : Option String) : Summary :=
  let p := summarize_rows (summary_query db user_id start_date end_date)
  { total_expense := p.1, total_credit := p.2, net_balance := p.2 - p.1 }

/-- Result of `search_transactions`: matching rows, or the
`"No matching transactions found."` message. -/
inductive SearchResult where
  | matches (data : List Txn)
  | noMatches
deriving Repr, DecidableEq

/-- `search_transactions`: exact match on tenant, date, amount and
category. -/
def search_transactions (db : DB) (user_id : String) (date : String)
    (amount : ℚ) (category : String) : SearchResult :=
  let res := db.transactions.filter (fun t =>
    t.user_id == user_id && t.date == date && t.amount == amount
      && t.category == category)
  if res.isEmpty then .noMatches else .matches res

/-- `update_transaction_by_id`: bail out when `new_amount` is absent;
otherwise update the rows matching `id` AND `user_id` and report success
only when the store returned at least one updated row. -/
def update_transaction_by_id (db : DB) (user_id : String) (t_id : Nat)
    (new_amount : Option ℚ) : DB × String :=
  match new_amount with
  | none => (db, "Nothing to update.")
  | some a =>
    let hit := fun (t : Txn) => t.id == t_id && t.user_id == user_id
    let touched := (db.transactions.filter hit).map (fun t => { t with amount := a })
    let db2 : DB :=
      { db with transactions :=
          db.transactions.map (fun t => if hit t then { t with amount := a } else t) }
    if touched.isEmpty then (db2, "Transaction not found or unauthorized.")
    else (db2, "Transaction " ++ toString t_id ++ " successfully updated to "
      ++ toString a ++ ".")

/-- `delete_transaction_by_id`: delete the rows matching `id` AND
`user_id`; success is reported only when the store returned a deleted
row. -/
def delete_transaction_by_id (db : DB) (user_id : String) (t_id : Nat) :
    DB × String :=
  let hit := fun (t : Txn) => t.id == t_id && t.user_id == user_id
  let deleted := db.transactions.filter hit
  let db2 : DB := { db with transactions := db.transactions.filter (fun t => !(hit t)) }
  if deleted.isEmpty then (db2, "Transaction not found or unauthorized.")
  else (db2, "Transaction " ++ toString t_id ++ " successfully deleted.")

/-! ## The categories resource -/

/-- A row of the external `categories` table. -/
structure CatRow where
  name : String
  subcategories : List String
deriving Repr, DecidableEq

/-- Outcome of the `categories` select: rows, or the exception the call
raised (`fileNotFound` for `FileNotFoundError`, `otherError` for any
other exception — e.g. the connection errors an unreachable store
raises). -/
inductive CatFetch where
  | ok (rows : List CatRow)
  | fileNotFound
  | otherError (msg : String)
deriving Repr, DecidableEq

/-- The three JSON payload shapes `get_categories` can serialize. -/
inductive CategoriesPayload where
  | catalog (dict : List (String × List String))
  | defaults (categories : List String)
  | errorPayload (msg : String)
deriving Repr, DecidableEq

/-- The hard-coded `default_categories` list. -/
def default_categories : List String :=
  ["Food & Dining", "Transportation", "Shopping", "Entertainment",
   "Bills & Utilities", "Healthcare", "Travel", "Education",
   "Business", "Other"]

/-- `get_categories`: on a successful select, serialize the
name → subcategories dictionary; on `FileNotFoundError` (the inner
`except`), serialize the default list; on any other exception (the
outer `except Exception`), serialize an error object. -/
def get_categories (fetch : CatFetch) : CategoriesPayload :=
  match fetch with
  | .ok rows => .catalog (rows.map (fun r => (r.name, r.subcategories)))
  | .fileNotFound => .defaults default_categories
  | .otherError e => .errorPayload ("Failed to fetch categories: " ++ e)

/-! ## Identity derivation (`generate_user_id`) and the auth middleware

`hashlib.sha256` is embedded as SHA-256 over the UTF-8 bytes of the
input string (FIPS 180-4), with 32-bit words as `Nat` reduced modulo
`2^32`. -/

/-- UTF-8 encoding of one character, as `str.encode()` produces it. -/
def utf8EncodeChar (c : Char) : List Nat :=
  let n := c.toNat
  if n < 128 then [n]
  else if n < 2048 then [192 ||| (n >>> 6), 128 ||| (n &&& 63)]
  else if n < 65536 then
    [224 ||| (n >>> 12), 128 ||| ((n >>> 6) &&& 63), 128 ||| (n &&& 63)]
  else
    [240 ||| (n >>> 18), 128 ||| ((n >>> 12) &&& 63),
     128 ||| ((n >>> 6) &&& 63), 128 ||| (n &&& 63)]

/-- `s.encode()`: the UTF-8 bytes of a string. -/
def utf8Encode (s : String) : List Nat := (s.data.map utf8EncodeChar).flatten

/-- Truncation to a 32-bit word. -/
def w32 (n : Nat) : Nat := n % 4294967296

/-- Right rotation of a 32-bit word. -/
def rotr (n x : Nat) : Nat := w32 ((x >>> n) ||| (x <<< (32 - n)))

/-- SHA-256 `Ch(e,f,g)`; the bitwise complement is xor against the
32-bit all-ones mask. -/
def shaCh (e f g : Nat) : Nat := (e &&& f) ^^^ ((e ^^^ 4294967295) &&& g)

/-- SHA-256 `Maj(a,b,c)`. -/
def shaMaj (a b c : Nat) : Nat := (a &&& b) ^^^ (a &&& c) ^^^ (b &&& c)

/-- SHA-256 `Σ0`. -/
def bigSigma0 (x : Nat) : Nat := rotr 2 x ^^^ rotr 13 x ^^^ rotr 22 x

/-- SHA-256 `Σ1`. -/
def bigSigma1 (x : Nat) : Nat := rotr 6 x ^^^ rotr 11 x ^^^ rotr 25 x

/-- SHA-256 `σ0`. -/
def smallSigma0 (x : Nat) : Nat := rotr 7 x ^^^ rotr 18 x ^^^ (x >>> 3)

/-- SHA-256 `σ1`. -/
def smallSigma1 (x : Nat) : Nat := rotr 17 x ^^^ rotr 19 x ^^^ (x >>> 10)

/-- The 64 SHA-256 round constants (FIPS 180-4, written in decimal). -/
def shaK : List Nat :=
  [1116352408, 1899447441, 3049323471, 3921009573,
   961987163, 1508970993, 2453635748, 2870763221,
   3624381080, 310598401, 607225278, 1426881987,
   1925078388, 2162078206, 2614888103, 3248222580,
   3835390401, 4022224774, 264347078, 604807628,
   770255983, 1249150122, 1555081692, 1996064986,
   2554220882, 2821834349, 2952996808, 3210313671,
   3336571891, 3584528711, 113926993, 338241895,
   666307205, 773529912, 1294757372, 1396182291,
   1695183700, 1986661051, 2177026350, 2456956037,
   2730485921, 2820302411, 3259730800, 3345764771,
   3516065817, 3600352804, 4094571909, 275423344,
   430227734, 506948616, 659060556, 883997877,
   958139571, 1322822218, 1537002063, 1747873779,
   1955562222, 2024104815, 2227730452, 2361852424,
   2428436474, 2756734187, 3204031479, 3329325298]

/-- The eight SHA-256 working variables / chaining values. -/
structure Hash8 where
  a : Nat
  b : Nat
  c : Nat
  d : Nat
  e : Nat
  f : Nat
  g : Nat
  h : Nat
deriving Repr, DecidableEq

/-- The SHA-256 initial hash value (FIPS 180-4, written in decimal). -/
def shaH0 : Hash8 :=
  { a := 1779033703, b := 3144134277, c := 1013904242, d := 2773480762,
    e := 1359893119, f := 2600822924, g := 528734635, h := 1541459225 }

/-- The eight big-endian bytes of the 64-bit message bit length. -/
def lengthBytes (bits : Nat) : List Nat :=
  [(bits >>> 56) % 256, (bits >>> 48) % 256, (bits >>> 40) % 256,
   (bits >>> 32) % 256, (bits >>> 24) % 256, (bits >>> 16) % 256,
   (bits >>> 8) % 256, bits % 256]

/-- SHA-256 padding: a 0x80 byte, zeros up to 56 mod 64, then the bit
length. -/
def padMessage (msg : List Nat) : List Nat :=
  let len := msg.length
  let k := (119 - len % 64) % 64
  msg ++ [128] ++ List.replicate k 0 ++ lengthBytes (8 * len)

/-- Big-endian 32-bit words from a byte list. -/
def bytesToWords : List Nat → List Nat
  | b0 :: b1 :: b2 :: b3 :: rest =>
    ((b0 <<< 24) ||| (b1 <<< 16) ||| (b2 <<< 8) ||| b3) :: bytesToWords rest
  | _ => []

/-- Split into 64-byte blocks; the fuel argument bounds the recursion
and is always passed as the list length. -/
def toBlocks : Nat → List Nat → List (List Nat)
  | 0, _ => []
  | _, [] => []
  | fuel + 1, l => l.take 64 :: toBlocks fuel (l.drop 64)

/-- One extension step of the message schedule, appending word `t` from
words `t-2`, `t-7`, `t-15`, `t-16`. -/
def scheduleStep (w : List Nat) : List Nat :=
  let t := w.length
  w ++ [w32 (smallSigma1 (w.getD (t - 2) 0) + w.getD (t - 7) 0
    + smallSigma0 (w.getD (t - 15) 0) + w.getD (t - 16) 0)]

/-- Extend the 16 block words to the 64-word schedule. -/
def extendWords : Nat → List Nat → List Nat
  | 0, w => w
  | k + 1, w => extendWords k (scheduleStep w)

/-- One SHA-256 compression round. -/
def compressStep (k w : Nat) (s : Hash8) : Hash8 :=
  let t1 := w32 (s.h + bigSigma1 s.e + shaCh s.e s.f s.g + k + w)
  let t2 := w32 (bigSigma0 s.a + shaMaj s.a s.b s.c)
  { a := w32 (t1 + t2), b := s.a, c := s.b, d := s.c,
    e := w32 (s.d + t1), f := s.e, g := s.f, h := s.g }

/-- The 64 compression rounds, driven by the constant and schedule
lists in lockstep. -/
def compressRounds : List Nat → List Nat → Hash8 → Hash8
  | k :: ks, w :: ws, s => compressRounds ks ws (compressStep k w s)
  | _, _, s => s

/-- Process the message blocks, adding each compression result into the
chaining value. -/
def processBlocks : List (List Nat) → Hash8 → Hash8
  | [], s => s
  | blk :: bs, s =>
    let t := compressRounds shaK (extendWords 48 (bytesToWords blk)) s
    processBlocks bs
      { a := w32 (s.a + t.a), b := w32 (s.b + t.b), c := w32 (s.c + t.c),
        d := w32 (s.d + t.d), e := w32 (s.e + t.e), f := w32 (s.f + t.f),
        g := w32 (s.g + t.g), h := w32 (s.h + t.h) }

/-- SHA-256 of a byte list: the eight 32-bit words of the digest. -/
def sha256 (msg : List Nat) : Hash8 :=
  let padded := padMessage msg
  processBlocks (toBlocks padded.length padded) shaH0

/-- One hex digit. -/
def hexChar (n : Nat) : Char :=
  if n < 10 then Char.ofNat (48 + n) else Char.ofNat (87 + n)

/-- Fixed-width lowercase hex rendering, most significant digit
first. -/
def toHexFixed : Nat → Nat → List Char
  | 0, _ => []
  | width + 1, n => toHexFixed width (n / 16) ++ [hexChar (n % 16)]

/-- `hexdigest()`: the 64 hex characters of the digest, each word
big-endian. -/
def hexChars (s : Hash8) : List Char :=
  toHexFixed 8 s.a ++ toHexFixed 8 s.b ++ toHexFixed 8 s.c ++ toHexFixed 8 s.d
    ++ toHexFixed 8 s.e ++ toHexFixed 8 s.f ++ toHexFixed 8 s.g ++ toHexFixed 8 s.h

/-- `generate_user_id`:
`hashlib.sha256(auth_header.encode()).hexdigest()[:16]` — note the
argument hashed is the whole header string. -/
def generate_user_id (auth_header : String) : String :=
  String.mk ((hexChars (sha256 (utf8Encode auth_header))).take 16)

/-- `auth_header.startswith("Bearer ")`. -/
def startsWithBearer (s : String) : Bool :=
  match s.data with
  | 'B' :: 'e' :: 'a' :: 'r' :: 'e' :: 'r' :: ' ' :: _ => true
  | _ => false

/-- `headers.get(key)` on the header dictionary. -/
def headers_get (headers : List (String × String)) (key : String) :
    Option String :=
  (headers.find? (fun p => p.1 == key)).map Prod.snd

/-- The guard of `AuthMiddleware.on_call_tool`: unauthorized when the
header is absent, empty (falsy) or lacks the `Bearer ` prefix;
otherwise the derived user id. -/
def on_call_tool (headers : List (String × String)) : Except String String :=
  match headers_get headers "authorization" with
  | none => .error "Unauthorized: Please provide a Bearer Token in your config."
  | some auth_header =>
    if auth_header == "" || !(startsWithBearer auth_header) then
      .error "Unauthorized: Please provide a Bearer Token in your config."
    else .ok (generate_user_id auth_header)

/-- A tool invocation behind the middleware: on rejection the wrapped
tool never runs (the store is untouched and the error is surfaced); on
success the tool runs with the derived user id bound in the context. -/
def call_tool (headers : List (String × String)) (db : DB)
    (tool : String → DB → DB × String) : DB × Except String String :=
  match on_call_tool headers with
  | .error e => (db, .error e)
  | .ok user_id => ((tool user_id db).1, .ok (tool user_id db).2)

/-! ## Concrete stores used as witnesses -/

/-- An empty store. -/
def dbEmpty : DB := { transactions := [], settings := [] }

/-- A store holding only a 1000 budget for tenant `"u"`. -/
def dbBudgetOnly : DB :=
  { transactions := [], settings := [{ user_id := "u", total_budget := 1000 }] }

/-- A June expense of 400 for tenant `"u"`. -/
def txJune : Txn :=
  { id := 1, user_id := "u", amount := 400, type := "expense",
    category := "Food", subcategory := "", note := "", date := "2025-06-05" }

/-- A store where tenant `"u"` has a 1000 budget and 400 of June
spend. -/
def dbJune : DB :=
  { transactions := [txJune],
    settings := [{ user_id := "u", total_budget := 1000 }] }

/-- A transaction of tenant `"a"`. -/
def txTenantA : Txn :=
  { id := 1, user_id := "a", amount := 10, type := "expense",
    category := "Food", subcategory := "", note := "", date := "2025-06-05" }

/-- A transaction of tenant `"b"`. -/
def txTenantB : Txn :=
  { id := 2, user_id := "b", amount := 20, type := "credit",
    category := "Travel", subcategory := "", note := "", date := "2025-06-06" }

/-- A store holding rows of the two distinct tenants `"a"` and `"b"`. -/
def dbTwoTenants : DB :=
  { transactions := [txTenantA, txTenantB], settings := [] }

/-! ## Helper lemmas -/

/-- Rendering a number in fixed width yields exactly that many hex
characters. -/
theorem toHexFixed_length (width n : Nat) : (toHexFixed width n).length = width := by
  induction width generalizing n with
  | zero => rfl
  | succ w ih => simp [toHexFixed, ih]

/-- A SHA-256 hex digest has 64 characters. -/
theorem hexChars_length (s : Hash8) : (hexChars s).length = 64 := by
  simp [hexChars, toHexFixed_length]

/-- Appending a row of the right tenant, kind and month adds its amount
to the monthly spend. -/
theorem month_spend_append_expense (db : DB) (today u : String) (row : Txn)
    (hu : row.user_id = u) (ht : row.type = "expense")
    (hd : dateLe (start_of_month today) row.date = true) :
    month_spend { db with transactions := db.transactions ++ [row] } today u
      = month_spend db today u + row.amount := by
  simp [month_spend, List.filter_append, hu, ht, hd]

/-- With a budget row present, `get_budget_status` is `classify` of
`budget - monthly spend - proposed expense`. -/
theorem gbs_eq (db : DB) (today u : String) (e : ℚ) (s : Setting)
    (hs : (db.settings.filter (fun x => x.user_id == u)).head? = some s) :
    get_budget_status db today u e
      = classify (s.total_budget - month_spend db today u - e) := by
  unfold get_budget_status
  rw [hs]

/-- Negative remaining classifies as exceeded by the overage. -/
theorem classify_neg {r : ℚ} (h : r < 0) : classify r = .exceeded (-r) := by
  rw [classify, if_neg (by rintro ⟨h0, _⟩; linarith), if_pos h, abs_of_neg h]

/-- Remaining in `[0, 500]` classifies as a warning. -/
theorem classify_mid {r : ℚ} (h0 : 0 ≤ r) (h5 : r ≤ 500) :
    classify r = .warning r := by
  rw [classify, if_pos ⟨h0, h5⟩]

/-- Remaining above 500 classifies as silent Ok. -/
theorem classify_hi {r : ℚ} (h : 500 < r) : classify r = .ok := by
  rw [classify, if_neg (by rintro ⟨_, h5⟩; linarith), if_neg (by intro h0; linarith)]

/-- The monthly spend of the June store for `"u"` is the 400 expense. -/
theorem month_spend_dbJune : month_spend dbJune "2025-06-15" "u" = 400 := by
  have h : month_spend dbJune "2025-06-15" "u" = ([400] : List ℚ).sum := rfl
  rw [h]
  norm_num

/-- The budget-only store has no monthly spend. -/
theorem month_spend_dbBudgetOnly :
    month_spend dbBudgetOnly "2025-06-15" "u" = 0 := rfl

/-- Claim C2: with a budget configured, the budget evaluation
classifies `remaining = budget - monthSpend - proposedExpense`:
negative remaining is Exceeded by `-remaining`, remaining in `[0, 500]`
is Warning with the remaining value, and anything larger is the silent
Ok; at the boundaries, remaining 500 and 499 warn, remaining -100 is
Exceeded by 100, and remaining 1000 is Ok. -/
theorem C2_budget_classification :
    (∀ (db : DB) (today u : String) (e : ℚ) (s : Setting),
      (db.settings.filter (fun x => x.user_id == u)).head? = some s →
      (s.total_budget - month_spend db today u - e < 0 →
        get_budget_status db today u e
          = .exceeded (-(s.total_budget - month_spend db today u - e))) ∧
      (0 ≤ s.total_budget - month_spend db today u - e →
        s.total_budget - month_spend db today u - e ≤ 500 →
        get_budget_status db today u e
          = .warning (s.total_budget - month_spend db today u - e)) ∧
      (500 < s.total_budget - month_spend db today u - e →
        get_budget_status db today u e = .ok)) ∧
    get_budget_status dbJune "2025-06-15" "u" 100 = .warning 500 ∧
    get_budget_status dbJune "2025-06-15" "u" 101 = .warning 499 ∧
    get_budget_status dbJune "2025-06-15" "u" 700 = .exceeded 100 ∧
    get_budget_status dbBudgetOnly "2025-06-15" "u" 0 = .ok := by
  have hsJ : (dbJune.settings.filter (fun x => x.user_id == "u")).head?
      = some { user_id := "u", total_budget := 1000 } := rfl
  have hsB : (dbBudgetOnly.settings.filter (fun x => x.user_id == "u")).head?
      = some { user_id := "u", total_budget := 1000 } := rfl
  refine ⟨fun db today u e s hs => ⟨fun h => ?_, fun h0 h5 => ?_, fun h => ?_⟩,
    ?_, ?_, ?_, ?_⟩
  · rw [gbs_eq db today u e s hs, classify_neg h]
  · rw [gbs_eq db today u e s hs, classify_mid h0 h5]
  · rw [gbs_eq db today u e s hs, classify_hi h]
  · rw [gbs_eq _ _ _ _ _ hsJ, month_spend_dbJune,
      show (1000 : ℚ) - 400 - 100 = 500 by norm_num]
    exact classify_mid (by norm_num) (by norm_num)
  · rw [gbs_eq _ _ _ _ _ hsJ, month_spend_dbJune,
      show (1000 : ℚ) - 400 - 101 = 499 by norm_num]
    exact classify_mid (by norm_num) (by norm_num)
  · rw [gbs_eq _ _ _ _ _ hsJ, month_spend_dbJune,
      show (1000 : ℚ) - 400 - 700 = -100 by norm_num]
    rw [classify_neg (by norm_num)]
    simp only [BudgetStatus.exceeded.injEq]
    norm_num
  · rw [gbs_eq _ _ _ _ _ hsB, month_spend_dbBudgetOnly,
      show (1000 : ℚ) - 0 - 0 = 1000 by norm_num]
    exact classify_hi (by norm_num)

/-- Witness for C2: the Exceeded branch of the general classification,
instantiated on the concrete June store with a 700 expense. -/
theorem C2_budget_classification_witness :
    get_budget_status dbJune "2025-06-15" "u" 750 = .exceeded 150 := by
  have h := (C2_budget_classification.1 dbJune "2025-06-15" "u" 750
    { user_id := "u", total_budget := 1000 } rfl).1
  rw [month_spend_dbJune] at h
  rw [h (by norm_num)]
  simp only [BudgetStatus.exceeded.injEq]
  norm_num

/-- Claim C9: `update_transaction_by_id` with the new amount absent
returns the explicit "Nothing to update." result and leaves the store
untouched. -/
theorem C9_update_absent_noop (db : DB) (u : String) (t_id : Nat) :
    update_transaction_by_id db u t_id none = (db, "Nothing to update.") := rfl

/-- Claim C6 counterexample: `add_transaction` invoked with the
negative amount -50 stores -50 itself — the stored amount of a created
transaction is not always positive. -/
theorem C6_counterexample :
    (add_transaction dbEmpty "2025-06-15" 1 "u" (-50) "Food" "" "" none
        false).1.transactions.map Txn.amount = [(-50 : ℚ)]
      ∧ ¬ (0 < (-50 : ℚ)) := by
  exact ⟨rfl, by norm_num⟩

/-- Claim C6 amended: the stored row carries exactly the supplied
amount (positive only when the supplied amount is), and its kind is
determined solely by the `is_credit` flag. -/
theorem C6_amended_stored_row (db : DB) (today : String) (new_id : Nat)
    (u : String) (amount : ℚ) (category subcategory note : String)
    (date : Option String) (is_credit : Bool) :
    (add_transaction db today new_id u amount category subcategory note date
        is_credit).1.transactions
      = db.transactions ++
        [{ id := new_id, user_id := u, amount := amount,
           type := if is_credit then "credit" else "expense",
           category := category, subcategory := subcategory, note := note,
           date := date.getD today }] := by
  cases is_credit <;> rfl

/-- Claim C7 (code bug): when the category fetch raises anything other
than `FileNotFoundError` — which is what an unreachable store raises —
`get_categories` returns the error payload, not the ten-element default
list; the default list is produced only for `FileNotFoundError`. -/
theorem C7_categories_fallback_bug :
    get_categories (.otherError "connection refused")
        = .errorPayload "Failed to fetch categories: connection refused"
      ∧ get_categories (.otherError "connection refused")
        ≠ .defaults default_categories
      ∧ get_categories .fileNotFound = .defaults default_categories
      ∧ default_categories.length = 10 := by
  refine ⟨by simp [get_categories], fun h => ?_, rfl, rfl⟩
  rw [get_categories] at h
  exact CategoriesPayload.noConfusion h

/-- The store after adding a 300 June expense for `"u"` to
`dbBudgetOnly`. -/
def dbAfterAdd : DB :=
  { transactions :=
      [{ id := 1, user_id := "u", amount := 300, type := "expense",
         category := "Food", subcategory := "", note := "",
         date := "2025-06-15" }],
    settings := [{ user_id := "u", total_budget := 1000 }] }

/-- The monthly spend of the post-add store already contains the new
300. -/
theorem month_spend_dbAfterAdd :
    month_spend dbAfterAdd "2025-06-15" "u" = 300 := by
  have h : month_spend dbAfterAdd "2025-06-15" "u" = ([300] : List ℚ).sum := rfl
  rw [h]
  norm_num

/-- Claim C3 counterexample: with a 1000 budget and no prior spend,
adding a 300 expense reports Warning(400) — the evaluator runs after the
insert and classifies `1000 - (0 + 300) - 300`, counting the new amount
twice, where the claim predicts classification of
`1000 - 0 - 300 = 700`, i.e. the silent Ok. -/
theorem C3_counterexample :
    (add_transaction dbBudgetOnly "2025-06-15" 1 "u" 300 "Food" "" "" none
        false).2 = some (BudgetStatus.warning 400)
      ∧ (add_transaction dbBudgetOnly "2025-06-15" 1 "u" 300 "Food" "" "" none
          false).2
        ≠ some (classify
            (1000 - month_spend dbBudgetOnly "2025-06-15" "u" - 300)) := by
  have h1 : (add_transaction dbBudgetOnly "2025-06-15" 1 "u" 300 "Food" "" ""
      none false).2 = some (get_budget_status dbAfterAdd "2025-06-15" "u" 300) := rfl
  have h2 : get_budget_status dbAfterAdd "2025-06-15" "u" 300
      = classify (1000 - month_spend dbAfterAdd "2025-06-15" "u" - 300) :=
    gbs_eq dbAfterAdd "2025-06-15" "u" 300 { user_id := "u", total_budget := 1000 } rfl
  constructor
  · rw [h1, h2, month_spend_dbAfterAdd,
      show (1000 : ℚ) - 300 - 300 = 400 by norm_num,
      classify_mid (by norm_num) (by norm_num)]
  · rw [h1, h2, month_spend_dbAfterAdd, month_spend_dbBudgetOnly,
      show (1000 : ℚ) - 300 - 300 = 400 by norm_num,
      show (1000 : ℚ) - 0 - 300 = 700 by norm_num,
      classify_mid (by norm_num) (by norm_num), classify_hi (by norm_num)]
    simp

/-- Claim C3 amended: for an expense added with a budget configured and
a date in the current month, the remaining value classified is
`budget - (monthly spend before the add) - 2 * amount` — the new amount
enters once through the post-insert monthly sum and once more as the
subtracted proposed expense. -/
theorem C3_amended_double_count (db : DB) (today : String) (new_id : Nat)
    (u : String) (amount : ℚ) (category subcategory note : String)
    (date : Option String) (s : Setting)
    (hs : (db.settings.filter (fun x => x.user_id == u)).head? = some s)
    (hd : dateLe (start_of_month today) (date.getD today) = true) :
    (add_transaction db today new_id u amount category subcategory note date
        false).2
      = some (classify
          (s.total_budget - month_spend db today u - amount - amount)) := by
  have h1 : (add_transaction db today new_id u amount category subcategory note
      date false).2
      = some (get_budget_status
          { db with transactions := db.transactions ++
              [{ id := new_id, user_id := u, amount := amount,
                 type := "expense", category := category,
                 subcategory := subcategory, note := note,
                 date := date.getD today }] } today u amount) := rfl
  rw [h1, gbs_eq { db with transactions := db.transactions ++
        [{ id := new_id, user_id := u, amount := amount, type := "expense",
           category := category, subcategory := subcategory, note := note,
           date := date.getD today }] } today u amount s hs,
    month_spend_append_expense db today u _ rfl rfl hd,
    show s.total_budget - (month_spend db today u + amount) - amount
        = s.total_budget - month_spend db today u - amount - amount by ring]

/-- Witness for C3 (amended): the concrete 300 add on the budget-only
store. -/
theorem C3_amended_double_count_witness :
    (add_transaction dbBudgetOnly "2025-06-15" 1 "u" 300 "Food" "" "" none
        false).2
      = some (classify
          (1000 - month_spend dbBudgetOnly "2025-06-15" "u" - 300 - 300)) :=
  C3_amended_double_count dbBudgetOnly "2025-06-15" 1 "u" 300 "Food" "" "" none
    { user_id := "u", total_budget := 1000 } rfl rfl

/-- Claim C5: a missing or non-`Bearer ` Authorization header fails the
invocation with the Unauthorized error and the tool body never runs —
the store comes back unchanged; a well-formed header binds the derived
tenant identifier and the tool runs with it. -/
theorem C5_auth_gate :
    (∀ (headers : List (String × String)) (db : DB)
        (tool : String → DB → DB × String),
      headers_get headers "authorization" = none →
      call_tool headers db tool
        = (db, .error "Unauthorized: Please provide a Bearer Token in your config.")) ∧
    (∀ (headers : List (String × String)) (db : DB)
        (tool : String → DB → DB × String) (h : String),
      headers_get headers "authorization" = some h →
      startsWithBearer h = false →
      call_tool headers db tool
        = (db, .error "Unauthorized: Please provide a Bearer Token in your config.")) ∧
    (∀ (headers : List (String × String)) (db : DB)
        (tool : String → DB → DB × String) (h : String),
      headers_get headers "authorization" = some h →
      startsWithBearer h = true →
      call_tool headers db tool
        = ((tool (generate_user_id h) db).1, .ok ((tool (generate_user_id h) db).2))) := by
  refine ⟨fun headers db tool hget => ?_, fun headers db tool h hget hsw => ?_,
    fun headers db tool h hget hsw => ?_⟩
  · simp [call_tool, on_call_tool, hget]
  · simp [call_tool, on_call_tool, hget, hsw]
  · have hne : (h == "") = false := by
      refine beq_eq_false_iff_ne.mpr fun he => ?_
      subst he
      exact absurd hsw (by decide)
    simp [call_tool, on_call_tool, hget, hsw, hne]

/-- Witness for C5: a request with no Authorization header is rejected
and leaves the two-tenant store unchanged. -/
theorem C5_auth_gate_witness :
    call_tool [("content-type", "application/json")] dbTwoTenants
        (fun uid db => (db, uid))
      = (dbTwoTenants,
         .error "Unauthorized: Please provide a Bearer Token in your config.") :=
  C5_auth_gate.1 [("content-type", "application/json")] dbTwoTenants
    (fun uid db => (db, uid)) rfl

set_option maxRecDepth 100000 in
/-- Claim C10: the tenant identifier is the first 16 hex characters of
the SHA-256 of the whole Authorization header — `"Bearer "` prefix
included, demonstrably not of the token alone — it always has exactly 16
characters, and the header `"Bearer "` (an empty token) passes the auth
check with a well-defined identifier. -/
theorem C10_user_id_full_header :
    (∀ h : String, generate_user_id h
        = String.mk ((hexChars (sha256 (utf8Encode h))).take 16)) ∧
    (hexChars (sha256 (utf8Encode "Bearer x"))).take 16
      ≠ (hexChars (sha256 (utf8Encode "x"))).take 16 ∧
    (∀ h : String, (generate_user_id h).length = 16) ∧
    on_call_tool [("authorization", "Bearer ")]
      = .ok (generate_user_id "Bearer ") := by
  refine ⟨fun h => rfl, by decide, fun h => ?_, rfl⟩
  show ((hexChars (sha256 (utf8Encode h))).take 16).length = 16
  rw [List.length_take, hexChars_length]
  norm_num

/-- When no row matches both the id and the tenant, the mutation filter
selects nothing. -/
theorem hit_filter_nil {l : List Txn} {u : String} {t_id : Nat}
    (h : ∀ t ∈ l, ¬(t.id = t_id ∧ t.user_id = u)) :
    l.filter (fun t => t.id == t_id && t.user_id == u) = [] := by
  rw [List.filter_eq_nil_iff]
  intro t ht
  simp only [Bool.and_eq_true, beq_iff_eq]
  exact h t ht

/-- When no row matches both the id and the tenant, `update` changes
nothing and reports the merged not-found-or-unauthorized result. -/
theorem update_miss (db : DB) (u : String) (t_id : Nat) (a : ℚ)
    (h : ∀ t ∈ db.transactions, ¬(t.id = t_id ∧ t.user_id = u)) :
    update_transaction_by_id db u t_id (some a)
      = (db, "Transaction not found or unauthorized.") := by
  have hf := hit_filter_nil h
  have hmap : db.transactions.map
      (fun t => if t.id == t_id && t.user_id == u then { t with amount := a }
        else t) = db.transactions := by
    conv_rhs => rw [← List.map_id db.transactions]
    refine List.map_congr_left fun t ht => ?_
    have hfalse : (t.id == t_id && t.user_id == u) = false := by
      rw [Bool.eq_false_iff]
      simp only [ne_eq, Bool.and_eq_true, beq_iff_eq]
      exact h t ht
    simp [hfalse]
  simp only [update_transaction_by_id, hf, hmap]
  simp

/-- When no row matches both the id and the tenant, `delete` changes
nothing and reports the merged not-found-or-unauthorized result. -/
theorem delete_miss (db : DB) (u : String) (t_id : Nat)
    (h : ∀ t ∈ db.transactions, ¬(t.id = t_id ∧ t.user_id = u)) :
    delete_transaction_by_id db u t_id
      = (db, "Transaction not found or unauthorized.") := by
  have hf := hit_filter_nil h
  have hkeep : db.transactions.filter
      (fun t => !(t.id == t_id && t.user_id == u)) = db.transactions := by
    rw [List.filter_eq_self]
    intro t ht
    have hfalse : (t.id == t_id && t.user_id == u) = false := by
      rw [Bool.eq_false_iff]
      simp only [ne_eq, Bool.and_eq_true, beq_iff_eq]
      exact h t ht
    simp [hfalse]
  simp only [delete_transaction_by_id, hf, hkeep]
  simp

/-- Every row the list query returns belongs to the queried tenant. -/
theorem list_query_user {db : DB} {A : String} {sd ed cat : Option String}
    {t : Txn} (ht : t ∈ list_query db A sd ed cat) : t.user_id = A := by
  cases sd <;> cases ed <;> cases cat <;>
    (simp only [list_query, List.mem_filter, Bool.and_eq_true, beq_iff_eq] at ht
     tauto)

/-- Every row `list_expenses` returns belongs to the queried tenant. -/
theorem list_rows_user {db : DB} {A : String} {sd ed cat : Option String}
    {lim : Nat} {l : List Txn}
    (h : list_expenses db A sd ed cat lim = ListResult.rows l) :
    ∀ t ∈ l, t.user_id = A := by
  intro t ht
  simp only [list_expenses] at h
  split at h
  · exact absurd h (by simp)
  · injection h with h
    subst h
    exact list_query_user (List.mem_mergeSort.mp (List.take_subset _ _ ht))

/-- Every row `search_transactions` returns belongs to the queried
tenant. -/
theorem search_matches_user {db : DB} {A d : String} {amt : ℚ} {c : String}
    {l : List Txn} (h : search_transactions db A d amt c = SearchResult.matches l) :
    ∀ t ∈ l, t.user_id = A := by
  intro t ht
  simp only [search_transactions] at h
  split at h
  · exact absurd h (by simp)
  · injection h with h
    subst h
    have hm := List.mem_filter.mp ht
    simp only [Bool.and_eq_true, beq_iff_eq] at hm
    tauto

/-- Restricting the store to the rows of the tenant does not change the
summary query. -/
theorem summary_query_restrict (db : DB) (A : String) (sd ed : Option String) :
    summary_query
        { transactions := db.transactions.filter (fun t => t.user_id == A),
          settings := db.settings } A sd ed
      = summary_query db A sd ed := by
  cases sd <;> cases ed <;>
    simp [summary_query, List.filter_filter, Bool.and_self]

/-- Claim C1: list and search never return rows of another tenant, the
summary is unchanged by deleting all rows of other tenants, and an
update or delete aimed at a row id owned by another tenant leaves the
store unchanged and reports the failure message, never success. -/
theorem C1_tenant_isolation :
    (∀ (db : DB) (A B : String) (sd ed cat : Option String) (lim : Nat)
        (l : List Txn), A ≠ B →
      list_expenses db A sd ed cat lim = ListResult.rows l →
      ∀ t ∈ l, t.user_id ≠ B) ∧
    (∀ (db : DB) (A B d : String) (amt : ℚ) (c : String) (l : List Txn),
      A ≠ B →
      search_transactions db A d amt c = SearchResult.matches l →
      ∀ t ∈ l, t.user_id ≠ B) ∧
    (∀ (db : DB) (A : String) (sd ed : Option String),
      get_summary
          { transactions := db.transactions.filter (fun t => t.user_id == A),
            settings := db.settings } A sd ed
        = get_summary db A sd ed) ∧
    (∀ (db : DB) (A B : String) (t_id : Nat) (a : ℚ), A ≠ B →
      (∀ t ∈ db.transactions, t.id = t_id → t.user_id = B) →
      (update_transaction_by_id db A t_id (some a)).1 = db ∧
      (update_transaction_by_id db A t_id (some a)).2
        = "Transaction not found or unauthorized.") ∧
    (∀ (db : DB) (A B : String) (t_id : Nat), A ≠ B →
      (∀ t ∈ db.transactions, t.id = t_id → t.user_id = B) →
      (delete_transaction_by_id db A t_id).1 = db ∧
      (delete_transaction_by_id db A t_id).2
        = "Transaction not found or unauthorized.") := by
  refine ⟨fun db A B sd ed cat lim l hne hrows t ht hB => ?_,
    fun db A B d amt c l hne hm t ht hB => ?_,
    fun db A sd ed => ?_,
    fun db A B t_id a hne hB => ?_,
    fun db A B t_id hne hB => ?_⟩
  · exact hne (by rw [← list_rows_user hrows t ht]; exact hB)
  · exact hne (by rw [← search_matches_user hm t ht]; exact hB)
  · simp [get_summary, summary_query_restrict]
  · have hmiss : ∀ t ∈ db.transactions, ¬(t.id = t_id ∧ t.user_id = A) :=
      fun t ht hc => hne (by rw [← hc.2]; exact hB t ht hc.1)
    rw [update_miss db A t_id a hmiss]
    exact ⟨rfl, rfl⟩
  · have hmiss : ∀ t ∈ db.transactions, ¬(t.id = t_id ∧ t.user_id = A) :=
      fun t ht hc => hne (by rw [← hc.2]; exact hB t ht hc.1)
    rw [delete_miss db A t_id hmiss]
    exact ⟨rfl, rfl⟩

/-- Witness for C1: tenant `"a"` deleting row id 2 owned by `"b"`
leaves the two-tenant store unchanged and gets the failure message. -/
theorem C1_tenant_isolation_witness :
    (delete_transaction_by_id dbTwoTenants "a" 2).1 = dbTwoTenants ∧
    (delete_transaction_by_id dbTwoTenants "a" 2).2
      = "Transaction not found or unauthorized." :=
  C1_tenant_isolation.2.2.2.2 dbTwoTenants "a" "b" 2 (by decide) (by decide)

/-- The store holding only the row of tenant `"b"`. -/
def dbOnlyTenantB : DB := { transactions := [txTenantB], settings := [] }

/-- Claim C4: update (and delete) on an id that exists under another
tenant returns exactly the same result message as on an id that does
not exist at all — both the merged not-found-or-unauthorized text. -/
theorem C4_not_found_indistinguishable (db1 db2 : DB) (u : String)
    (id1 id2 : Nat) (a : ℚ)
    (h1 : ∀ t ∈ db1.transactions, t.id ≠ id1)
    (_h2e : ∃ t ∈ db2.transactions, t.id = id2)
    (h2 : ∀ t ∈ db2.transactions, t.id = id2 → t.user_id ≠ u) :
    ((update_transaction_by_id db1 u id1 (some a)).2
        = (update_transaction_by_id db2 u id2 (some a)).2
      ∧ (update_transaction_by_id db1 u id1 (some a)).2
        = "Transaction not found or unauthorized.")
    ∧ ((delete_transaction_by_id db1 u id1).2
        = (delete_transaction_by_id db2 u id2).2
      ∧ (delete_transaction_by_id db1 u id1).2
        = "Transaction not found or unauthorized.") := by
  have m1 : ∀ t ∈ db1.transactions, ¬(t.id = id1 ∧ t.user_id = u) :=
    fun t ht hc => h1 t ht hc.1
  have m2 : ∀ t ∈ db2.transactions, ¬(t.id = id2 ∧ t.user_id = u) :=
    fun t ht hc => h2 t ht hc.1 hc.2
  rw [update_miss db1 u id1 a m1, update_miss db2 u id2 a m2,
    delete_miss db1 u id1 m1, delete_miss db2 u id2 m2]
  exact ⟨⟨rfl, rfl⟩, rfl, rfl⟩

/-- Witness for C4: id 7 exists nowhere; id 2 exists but belongs to
tenant `"b"`; tenant `"a"` gets the same message for both. -/
theorem C4_not_found_indistinguishable_witness :
    ((update_transaction_by_id dbEmpty "a" 7 (some 5)).2
        = (update_transaction_by_id dbOnlyTenantB "a" 2 (some 5)).2
      ∧ (update_transaction_by_id dbEmpty "a" 7 (some 5)).2
        = "Transaction not found or unauthorized.")
    ∧ ((delete_transaction_by_id dbEmpty "a" 7).2
        = (delete_transaction_by_id dbOnlyTenantB "a" 2).2
      ∧ (delete_transaction_by_id dbEmpty "a" 7).2
        = "Transaction not found or unauthorized.") :=
  C4_not_found_indistinguishable dbEmpty dbOnlyTenantB "a" 7 2 5 (by decide)
    (by decide) (by decide)

/-- The accumulator form of the `get_summary` loop: expenses and
credits of the traversed rows are added to the running pair, rows of
any other kind are skipped. -/
theorem summarize_rows_go (rows : List Txn) (p : ℚ × ℚ) :
    rows.foldl (fun acc row =>
      if row.type == "expense" then (acc.1 + row.amount, acc.2)
      else if row.type == "credit" then (acc.1, acc.2 + row.amount)
      else acc) p
      = (p.1 + ((rows.filter (fun t => t.type == "expense")).map Txn.amount).sum,
         p.2 + ((rows.filter (fun t => t.type == "credit")).map Txn.amount).sum) := by
  induction rows generalizing p with
  | nil => simp
  | cons r rs ih =>
    rw [List.foldl_cons]
    by_cases he : r.type = "expense"
    · have hhead : (if r.type == "expense" then (p.1 + r.amount, p.2)
          else if r.type == "credit" then (p.1, p.2 + r.amount) else p)
          = (p.1 + r.amount, p.2) := by
        simp [he]
      rw [hhead, ih]
      simp [List.filter_cons, he, add_assoc]
    · by_cases hc : r.type = "credit"
      · have hhead : (if r.type == "expense" then (p.1 + r.amount, p.2)
            else if r.type == "credit" then (p.1, p.2 + r.amount) else p)
            = (p.1, p.2 + r.amount) := by
          simp [he, hc]
        rw [hhead, ih]
        simp [List.filter_cons, he, hc, add_assoc]
      · have hhead : (if r.type == "expense" then (p.1 + r.amount, p.2)
            else if r.type == "credit" then (p.1, p.2 + r.amount) else p)
            = p := by
          simp [he, hc]
        rw [hhead, ih]
        simp [List.filter_cons, he, hc]

/-- The summary query over an appended transaction list splits into the
two queries. -/
theorem summary_query_append (A B : List Txn) (st : List Setting) (u : String)
    (sd ed : Option String) :
    summary_query { transactions := A ++ B, settings := st } u sd ed
      = summary_query { transactions := A, settings := st } u sd ed
        ++ summary_query { transactions := B, settings := st } u sd ed := by
  cases sd <;> cases ed <;> simp [summary_query, List.filter_append]

/-- Claim C8: the totalExpense and totalCredit of the summary are sums of
the amounts of the expense- and credit-kind rows of the queried window
(rows of any other kind are ignored), netBalance is their difference,
and all three totals are additive across a split of the stored
transaction list. -/
theorem C8_summary_sums_linear :
    (∀ (db : DB) (u : String) (sd ed : Option String),
      (get_summary db u sd ed).total_expense
          = (((summary_query db u sd ed).filter
              (fun t => t.type == "expense")).map Txn.amount).sum
        ∧ (get_summary db u sd ed).total_credit
          = (((summary_query db u sd ed).filter
              (fun t => t.type == "credit")).map Txn.amount).sum
        ∧ (get_summary db u sd ed).net_balance
          = (get_summary db u sd ed).total_credit
            - (get_summary db u sd ed).total_expense) ∧
    (∀ (A B : List Txn) (st : List Setting) (u : String)
        (sd ed : Option String),
      (get_summary { transactions := A ++ B, settings := st } u sd ed).total_expense
          = (get_summary { transactions := A, settings := st } u sd ed).total_expense
            + (get_summary { transactions := B, settings := st } u sd ed).total_expense
        ∧ (get_summary { transactions := A ++ B, settings := st } u sd ed).total_credit
          = (get_summary { transactions := A, settings := st } u sd ed).total_credit
            + (get_summary { transactions := B, settings := st } u sd ed).total_credit
        ∧ (get_summary { transactions := A ++ B, settings := st } u sd ed).net_balance
          = (get_summary { transactions := A, settings := st } u sd ed).net_balance
            + (get_summary { transactions := B, settings := st } u sd ed).net_balance) := by
  have hchar : ∀ (db : DB) (u : String) (sd ed : Option String),
      (get_summary db u sd ed).total_expense
          = (((summary_query db u sd ed).filter
              (fun t => t.type == "expense")).map Txn.amount).sum
        ∧ (get_summary db u sd ed).total_credit
          = (((summary_query db u sd ed).filter
              (fun t => t.type == "credit")).map Txn.amount).sum := by
    intro db u sd ed
    have h := summarize_rows_go (summary_query db u sd ed) (0, 0)
    constructor
    · show (summarize_rows (summary_query db u sd ed)).1 = _
      rw [summarize_rows, h]
      norm_num
    · show (summarize_rows (summary_query db u sd ed)).2 = _
      rw [summarize_rows, h]
      norm_num
  refine ⟨fun db u sd ed => ⟨(hchar db u sd ed).1, (hchar db u sd ed).2, rfl⟩,
    fun A B st u sd ed => ?_⟩
  have hne : (get_summary { transactions := A ++ B, settings := st } u sd ed).net_balance
      = (get_summary { transactions := A ++ B, settings := st } u sd ed).total_credit
        - (get_summary { transactions := A ++ B, settings := st } u sd ed).total_expense := rfl
  have he := (hchar { transactions := A ++ B, settings := st } u sd ed).1
  have hc := (hchar { transactions := A ++ B, settings := st } u sd ed).2
  have heA := (hchar { transactions := A, settings := st } u sd ed).1
  have hcA := (hchar { transactions := A, settings := st } u sd ed).2
  have heB := (hchar { transactions := B, settings := st } u sd ed).1
  have hcB := (hchar { transactions := B, settings := st } u sd ed).2
  have hsplit := summary_query_append A B st u sd ed
  have he2 : (get_summary { transactions := A ++ B, settings := st } u sd ed).total_expense
      = (get_summary { transactions := A, settings := st } u sd ed).total_expense
        + (get_summary { transactions := B, settings := st } u sd ed).total_expense := by
    rw [he, heA, heB, hsplit, List.filter_append, List.map_append, List.sum_append]
  have hc2 : (get_summary { transactions := A ++ B, settings := st } u sd ed).total_credit
      = (get_summary { transactions := A, settings := st } u sd ed).total_credit
        + (get_summary { transactions := B, settings := st } u sd ed).total_credit := by
    rw [hc, hcA, hcB, hsplit, List.filter_append, List.map_append, List.sum_append]
  refine ⟨he2, hc2, ?_⟩
  rw [hne, he2, hc2,
    show (get_summary { transactions := A, settings := st } u sd ed).net_balance
      = (get_summary { transactions := A, settings := st } u sd ed).total_credit
        - (get_summary { transactions := A, settings := st } u sd ed).total_expense
      from rfl,
    show (get_summary { transactions := B, settings := st } u sd ed).net_balance
      = (get_summary { transactions := B, settings := st } u sd ed).total_credit
        - (get_summary { transactions := B, settings := st } u sd ed).total_expense
      from rfl]
  ring

end ExpenseTracker
